import Mathlib

/-!
Verification of the live-session pipeline of DevMentor AI
(src/components/LiveSession.tsx).

The embedding models, over `ℚ` for audio sample values and clock times:

* the PCM codec (`createBlob`, `encode`, `decode`, `decodeAudioData`,
  lines 12-60 of LiveSession.tsx), including the browser's `btoa`/`atob`
  base64 primitives and the ECMAScript `ToInt16` conversion performed by
  an `Int16Array` element store;
* the audio playback scheduler state (`nextStartTimeRef`, `sourcesRef`)
  with the enqueue logic of the `onmessage` handler (lines 156-191) and
  the interruption branch;
* the React component state of `LiveSession` (status, mute flag, media
  refs) with the operations `startSession`, `stopSession`,
  `startScreenShare`, `stopScreenShare`, `toggleMute` and the transport
  callbacks.  Closure capture of the `isMuted` state variable by the
  installed `onaudioprocess` handler is modelled explicitly, since React
  state reads inside long-lived callbacks see the value from the render
  that created the callback.
-/

namespace DevMentor

/-! ## PCM codec -/

/-- Truncation toward zero of a rational, as performed by the ECMAScript
abstract operation ToIntegerOrInfinity on a finite number. -/
def truncQ (v : ℚ) : Int := if 0 ≤ v then ⌊v⌋ else ⌈v⌉

/-- The ECMAScript ToInt16 conversion applied when storing a number into an
`Int16Array` element: truncate toward zero, reduce modulo 2^16, interpret
the result as a signed 16-bit value. -/
def toInt16 (v : ℚ) : Int :=
  if 32768 ≤ truncQ v % 65536 then truncQ v % 65536 - 65536
  else truncQ v % 65536

/-- The per-sample conversion of `createBlob` (LiveSession.tsx line 16):
`int16[i] = data[i] * 32768` stores `data[i] * 32768` through ToInt16. -/
def quantize (s : ℚ) : Int := toInt16 (s * 32768)

/-- The unsigned 16-bit representation of an int16 value inside the backing
`ArrayBuffer` (two's complement). -/
def toUint16 (k : Int) : Nat := (k % 65536).toNat

/-- Reinterpret an unsigned 16-bit value as a signed 16-bit value, as an
`Int16Array` read does. -/
def fromUint16 (u : Nat) : Int := if 32768 ≤ u then (u : Int) - 65536 else (u : Int)

/-- The byte image of an `Int16Array` buffer viewed through `Uint8Array`:
little-endian, low byte first (LiveSession.tsx line 19 reads
`new Uint8Array(int16.buffer)`). -/
def int16ToBytes : List Int → List Nat
  | [] => []
  | k :: rest => toUint16 k % 256 :: toUint16 k / 256 :: int16ToBytes rest

/-- Reinterpreting a byte buffer as an `Int16Array`
(LiveSession.tsx line 49): consecutive little-endian byte pairs become
signed 16-bit values; a trailing odd byte cannot occur because the view
construction rejects odd lengths. -/
def bytesToInt16 : List Nat → List Int
  | lo :: hi :: rest => fromUint16 (lo + 256 * hi) :: bytesToInt16 rest
  | _ => []

/-- Character code of the base64 digit with value `k`, as used by the
browser's `btoa` (alphabet A-Z, a-z, 0-9, +, /). -/
def b64Char (k : Nat) : Nat :=
  if k < 26 then 65 + k
  else if k < 52 then 97 + (k - 26)
  else if k < 62 then 48 + (k - 52)
  else if k = 62 then 43
  else 47

/-- Value of a base64 digit character code, as used by the browser's
`atob`. -/
def b64Index (c : Nat) : Nat :=
  if 65 ≤ c ∧ c ≤ 90 then c - 65
  else if 97 ≤ c ∧ c ≤ 122 then c - 97 + 26
  else if 48 ≤ c ∧ c ≤ 57 then c - 48 + 52
  else if c = 43 then 62
  else 63

/-- The source's `encode` (LiveSession.tsx lines 24-31): builds a binary
string from the bytes and applies `btoa`.  Modelled as the standard base64
encoding of the byte list, producing the character codes of the base64
string ('=' is character code 61). -/
def encode : List Nat → List Nat
  | b0 :: b1 :: b2 :: rest =>
    let n := b0 * 65536 + b1 * 256 + b2
    b64Char (n / 262144) :: b64Char (n / 4096 % 64) :: b64Char (n / 64 % 64) ::
      b64Char (n % 64) :: encode rest
  | [b0, b1] =>
    let n := b0 * 65536 + b1 * 256
    [b64Char (n / 262144), b64Char (n / 4096 % 64), b64Char (n / 64 % 64), 61]
  | [b0] =>
    let n := b0 * 65536
    [b64Char (n / 262144), b64Char (n / 4096 % 64), 61, 61]
  | [] => []

/-- The source's `decode` (LiveSession.tsx lines 33-41): applies `atob` and
reads the character codes of the resulting binary string.  Modelled as the
standard base64 decoding of a list of character codes. -/
def decode : List Nat → List Nat
  | c0 :: c1 :: c2 :: c3 :: rest =>
    if c2 = 61 then
      [b64Index c0 * 4 + b64Index c1 / 16]
    else if c3 = 61 then
      [b64Index c0 * 4 + b64Index c1 / 16,
       b64Index c1 % 16 * 16 + b64Index c2 / 4]
    else
      let n := b64Index c0 * 262144 + b64Index c1 * 4096 + b64Index c2 * 64 + b64Index c3
      n / 65536 :: n / 256 % 256 :: n % 256 :: decode rest
  | _ => []

/-- Outbound audio blob shape produced by `createBlob`
(LiveSession.tsx lines 18-21). -/
structure GenAIBlob where
  data : List Nat
  mimeType : String
deriving DecidableEq, Repr

/-- `createBlob` (LiveSession.tsx lines 12-22): stores each float sample
times 32768 into an `Int16Array`, views the buffer as bytes, and
base64-encodes them. -/
def createBlob (data : List ℚ) : GenAIBlob :=
  { data := encode (int16ToBytes (data.map quantize)),
    mimeType := "audio/pcm;rate=16000" }

/-- Result of `ctx.createBuffer` populated by `decodeAudioData`
(LiveSession.tsx lines 43-60). -/
structure AudioBufferModel where
  numChannels : Nat
  frameCount : Nat
  sampleRate : Nat
  channels : List (List ℚ)
deriving DecidableEq, Repr

/-- `AudioBuffer.duration` of the Web Audio API: frame count divided by
sample rate, in seconds. -/
def AudioBufferModel.duration (b : AudioBufferModel) : ℚ :=
  (b.frameCount : ℚ) / (b.sampleRate : ℚ)

/-- `decodeAudioData` (LiveSession.tsx lines 43-60).
`new Int16Array(data.buffer)` throws a RangeError when the byte length is
odd; `ctx.createBuffer` throws a NotSupportedError when the frame count is
zero.  Otherwise each channel is filled with
`dataInt16[i * numChannels + channel] / 32768`.  The JS loop bound
`frameCount = dataInt16.length / numChannels` may be fractional; writes
beyond the buffer length are discarded by `Float32Array`, so the
observable channel data is the first `⌊length / numChannels⌋` frames,
which Nat division computes directly. -/
def decodeAudioData (data : List Nat) (sampleRate numChannels : Nat) :
    Except String AudioBufferModel :=
  if data.length % 2 ≠ 0 then
    Except.error "RangeError: byte length of Int16Array should be a multiple of 2"
  else
    let dataInt16 := bytesToInt16 data
    let frameCount := dataInt16.length / numChannels
    if frameCount = 0 then
      Except.error "NotSupportedError: createBuffer requires a positive length"
    else
      Except.ok
        { numChannels := numChannels, frameCount := frameCount, sampleRate := sampleRate,
          channels :=
            (List.range numChannels).map (fun channel =>
              (List.range frameCount).map (fun i =>
                ((dataInt16.getD (i * numChannels + channel) 0 : ℚ)) / 32768)) }

/-! ## Audio playback scheduler -/

/-- One `AudioBufferSourceNode` created by the `onmessage` handler.
`playing` is true once `start` has been called and neither natural
completion nor a forced `stop` has happened. -/
structure PlaybackSource where
  id : Nat
  startAt : ℚ
  duration : ℚ
  playing : Bool
deriving DecidableEq, Repr

/-- Scheduler state: `nextStartTime` is `nextStartTimeRef.current`,
`liveIds` the identities held by `sourcesRef.current`, `allSources` the
audio graph's view of every node created so far, `nextId` a fresh-name
supply for created nodes. -/
structure SchedulerState where
  nextStartTime : ℚ
  allSources : List PlaybackSource
  liveIds : List Nat
  nextId : Nat
deriving DecidableEq, Repr

/-- Scheduler state at mount: `nextStartTimeRef` initialized to 0 and an
empty source set (LiveSession.tsx lines 85-86). -/
def initScheduler : SchedulerState :=
  { nextStartTime := 0, allSources := [], liveIds := [], nextId := 0 }

/-- The audio-enqueue steps of `onmessage` (LiveSession.tsx lines 161-180)
at scheduler level, for a buffer of the given duration and the current
output-device clock: `nextStartTime = max(nextStartTime, clock)`, start the
new source there, advance `nextStartTime` by the duration, add the source
to the live set.  Returns the new state and the scheduled start time. -/
def enqueue (st : SchedulerState) (duration clock : ℚ) : SchedulerState × ℚ :=
  let startAt := max st.nextStartTime clock
  let src : PlaybackSource :=
    { id := st.nextId, startAt := startAt, duration := duration, playing := true }
  ({ nextStartTime := startAt + duration,
     allSources := st.allSources ++ [src],
     liveIds := st.liveIds ++ [st.nextId],
     nextId := st.nextId + 1 }, startAt)

/-- Enqueue a list of (duration, clock reading) pairs in order, collecting
the scheduled start times. -/
def enqueueRun (st : SchedulerState) : List (ℚ × ℚ) → SchedulerState × List ℚ
  | [] => (st, [])
  | (d, c) :: rest =>
    let p := enqueue st d c
    let q := enqueueRun p.1 rest
    (q.1, p.2 :: q.2)

/-- The device clock reading of every frame stays behind the scheduler's
`nextStartTime` at the moment that frame is enqueued. -/
def clocksBehind (st : SchedulerState) : List (ℚ × ℚ) → Bool
  | [] => true
  | (d, c) :: rest => decide (c ≤ st.nextStartTime) && clocksBehind (enqueue st d c).1 rest

/-- Total duration of a list of (duration, clock) frames. -/
def sumDur (frames : List (ℚ × ℚ)) : ℚ := (frames.map Prod.fst).sum

/-- `AudioBufferSourceNode.stop`, which may throw when the node is no
longer playing; the modelled error is the reason the handler wraps the
call in try/catch. -/
def sourceStop (s : PlaybackSource) : Except String PlaybackSource :=
  if s.playing then Except.ok { s with playing := false }
  else Except.error "InvalidStateError"

/-- The `try { src.stop(); } catch(e) {}` body of the interruption branch
(LiveSession.tsx line 187): a failing stop is swallowed, leaving the
source as it was. -/
def tryStop (s : PlaybackSource) : PlaybackSource :=
  match sourceStop s with
  | Except.ok s' => s'
  | Except.error _ => s

/-- The interruption branch of `onmessage` (LiveSession.tsx lines 184-191):
stop every source in the live set (each stop guarded by try/catch), clear
the set, reset `nextStartTime` to 0. -/
def interrupt (st : SchedulerState) : SchedulerState :=
  { st with
    allSources := st.allSources.map (fun s => if s.id ∈ st.liveIds then tryStop s else s),
    liveIds := [],
    nextStartTime := 0 }

/-- The `ended` listener of a source (LiveSession.tsx lines 174-176):
natural completion removes the source from the live set; the node itself
stops playing. -/
def sourceEnded (st : SchedulerState) (i : Nat) : SchedulerState :=
  { st with
    allSources := st.allSources.map (fun s => if s.id = i then { s with playing := false } else s),
    liveIds := st.liveIds.filter (fun j => j ≠ i) }

/-- The whole audio branch of `onmessage` (LiveSession.tsx lines 158-181)
for a message carrying the given base64 payload: the clock bump
`nextStartTime = max(nextStartTime, clock)` happens before decoding; if
`decodeAudioData` throws, the exception escapes the handler (no try/catch)
and no source is created.  The boolean records whether an exception
escaped. -/
def handleAudioMessage (st : SchedulerState) (base64Audio : List Nat) (clock : ℚ) :
    SchedulerState × Bool :=
  let st1 := { st with nextStartTime := max st.nextStartTime clock }
  match decodeAudioData (decode base64Audio) 24000 1 with
  | Except.error _ => (st1, true)
  | Except.ok buffer =>
    let src : PlaybackSource :=
      { id := st1.nextId, startAt := st1.nextStartTime,
        duration := buffer.duration, playing := true }
    ({ st1 with
        nextStartTime := st1.nextStartTime + buffer.duration,
        allSources := st1.allSources ++ [src],
        liveIds := st1.liveIds ++ [st1.nextId],
        nextId := st1.nextId + 1 }, false)

/-! ## Live session controller state -/

/-- The component's `status` state variable. -/
inductive Status
  | idle
  | connecting
  | connected
  | error
deriving DecidableEq, Repr

/-- A timer created by `window.setInterval`, remembering its period. -/
structure IntervalHandle where
  periodMs : Nat
deriving DecidableEq, Repr

/-- A display-capture `MediaStream`; `active` is false once the user has
revoked sharing. -/
structure ScreenStream where
  id : Nat
  active : Bool
deriving DecidableEq, Repr

/-- The transport handle held in `sessionPromiseRef`; `closeRaises` records
whether requesting `close()` on it fails. -/
structure SessionHandle where
  id : Nat
  closeRaises : Bool
deriving DecidableEq, Repr

/-- The `LiveSession` component state: React state variables, the media
refs, and the closure-captured mute value of the installed
`onaudioprocess` handler.  `startRenderMuted` is the `isMuted` value seen
by the closures created in `startSession`'s render; `handlerMuted` is the
value the installed audio-block handler consults.  `sentAudioBlocks` and
`sentScreenFrames` count outbound media messages handed to the
transport. -/
structure LiveState where
  aiReady : Bool
  surfacesReady : Bool
  isActive : Bool
  status : Status
  isMuted : Bool
  isScreenSharing : Bool
  volumeLevel : ℚ
  audioContextRef : Option Nat
  inputAudioContextRef : Option Nat
  streamRef : Option Nat
  processorRef : Option Nat
  sourceRef : Option Nat
  screenStreamRef : Option ScreenStream
  videoSrcObject : Option Nat
  screenIntervalRef : Option IntervalHandle
  sessionPromiseRef : Option SessionHandle
  nextStartTimeRef : ℚ
  startRenderMuted : Option Bool
  handlerMuted : Option Bool
  sentAudioBlocks : Nat
  sentScreenFrames : Nat
deriving DecidableEq, Repr

/-- Component state after mount (the mount effect has created the AI
client and the hidden video/canvas surfaces) and before any session. -/
def initialLiveState : LiveState :=
  { aiReady := true, surfacesReady := true, isActive := false, status := Status.idle,
    isMuted := false, isScreenSharing := false, volumeLevel := 0,
    audioContextRef := none, inputAudioContextRef := none, streamRef := none,
    processorRef := none, sourceRef := none, screenStreamRef := none,
    videoSrcObject := none, screenIntervalRef := none, sessionPromiseRef := none,
    nextStartTimeRef := 0, startRenderMuted := none, handlerMuted := none,
    sentAudioBlocks := 0, sentScreenFrames := 0 }

/-- Environment answering the suspension points of `startSession`: whether
`getUserMedia` grants the microphone, and fresh identities for the
resources the browser hands out. -/
structure StartEnv where
  micGranted : Bool
  inputCtxId : Nat
  outputCtxId : Nat
  micStreamId : Nat
  sessionId : Nat
deriving DecidableEq, Repr

/-- `startSession` (LiveSession.tsx lines 104-224) up to its suspension on
the transport callbacks.  The only guard is `if (!aiRef.current) return`;
then `setStatus('connecting')`, creation of both audio contexts,
`getUserMedia` (whose failure reaches the catch block, which only sets
status to `error`), and the `live.connect` call whose promise is stored.
The closures created here capture the current `isMuted` value. -/
def startSession (st : LiveState) (env : StartEnv) : LiveState :=
  if st.aiReady = false then st
  else
    let st1 := { st with status := Status.connecting }
    let st2 := { st1 with inputAudioContextRef := some env.inputCtxId,
                          audioContextRef := some env.outputCtxId }
    if env.micGranted = false then { st2 with status := Status.error }
    else
      { st2 with streamRef := some env.micStreamId,
                 sessionPromiseRef := some { id := env.sessionId, closeRaises := false },
                 startRenderMuted := some st.isMuted }

/-- The `onopen` callback (LiveSession.tsx lines 124-155): status becomes
`connected`, the capture graph is built, and the installed
`onaudioprocess` handler consults the `isMuted` value captured at
`startSession` time. -/
def onTransportOpen (st : LiveState) (srcId procId : Nat) : LiveState :=
  { st with status := Status.connected, isActive := true,
            sourceRef := some srcId, processorRef := some procId,
            handlerMuted := st.startRenderMuted }

/-- The `onaudioprocess` handler (LiveSession.tsx lines 133-148) for one
capture block: with an installed handler on a connected processor, a block
is dropped when the captured mute value is true; otherwise the volume
metric is updated and exactly one outbound audio message is sent. -/
def onAudioProcess (st : LiveState) (inputData : List ℚ) : LiveState :=
  match st.processorRef, st.handlerMuted with
  | some _, some muted =>
    if muted then st
    else
      let s := (inputData.map (fun v => |v|)).sum
      { st with volumeLevel := min 100 (s / (inputData.length : ℚ) * 500),
                sentAudioBlocks := st.sentAudioBlocks + 1 }
  | _, _ => st

/-- `toggleMute` (LiveSession.tsx lines 338-340): flips the `isMuted`
state variable and nothing else. -/
def toggleMute (st : LiveState) : LiveState :=
  { st with isMuted := !st.isMuted }

/-- `stopScreenShare` (LiveSession.tsx lines 281-297): clear the sampling
timer, stop and drop the display stream, detach the video surface, clear
the sharing flag; every step is guarded against an already-null ref. -/
def stopScreenShare (st : LiveState) : LiveState :=
  { st with screenIntervalRef := none, screenStreamRef := none,
            videoSrcObject := none, isScreenSharing := false }

/-- `stopSession` (LiveSession.tsx lines 299-336): stop screen sharing,
discard the capture nodes and microphone stream, close both audio
contexts, request transport close with any error swallowed by
`.catch(() => {})`, clear UI state and reset the playback clock. -/
def stopSession (st : LiveState) : LiveState :=
  let st1 := stopScreenShare st
  { st1 with processorRef := none, sourceRef := none, streamRef := none,
             audioContextRef := none, inputAudioContextRef := none,
             sessionPromiseRef := none,
             isActive := false, status := Status.idle, volumeLevel := 0,
             nextStartTimeRef := 0 }

/-- The `onerror` callback (LiveSession.tsx lines 197-201):
`setStatus('error')` followed by `stopSession()`. -/
def onTransportError (st : LiveState) : LiveState :=
  stopSession { st with status := Status.error }

/-- The `onclose` callback (LiveSession.tsx lines 193-196). -/
def onTransportClose (st : LiveState) : LiveState :=
  stopSession st

/-- Environment for `startScreenShare`: whether `getDisplayMedia` grants a
stream, and its identity. -/
structure ScreenEnv where
  displayGranted : Bool
  streamId : Nat
deriving DecidableEq, Repr

/-- `startScreenShare` (LiveSession.tsx lines 226-279): guarded on an open
session; a denied display capture only clears the sharing flag; otherwise
the stream is bound to the video surface, sharing is set, and a 1000 ms
sampling interval is installed (provided the hidden surfaces exist). -/
def startScreenShare (st : LiveState) (env : ScreenEnv) : LiveState :=
  if st.sessionPromiseRef = none then st
  else if env.displayGranted = false then { st with isScreenSharing := false }
  else
    let st1 := { st with screenStreamRef := some { id := env.streamId, active := true },
                         videoSrcObject := some env.streamId,
                         isScreenSharing := true }
    if st1.surfacesReady = false then st1
    else { st1 with screenIntervalRef := some { periodMs := 1000 } }

/-- The display stream is absent or no longer active, the condition
`!screenStreamRef.current?.active` of the sampling tick. -/
def screenInactive (st : LiveState) : Bool :=
  match st.screenStreamRef with
  | none => true
  | some s => !s.active

/-- One firing of the screen-sampling interval (LiveSession.tsx
lines 249-268): if the stream has ended the tick self-stops the pipeline
and sends nothing; otherwise a frame is drawn and, when the session handle
is present, exactly one outbound image message is sent. -/
def screenTick (st : LiveState) : LiveState :=
  if screenInactive st then stopScreenShare st
  else if st.sessionPromiseRef = none then st
  else { st with sentScreenFrames := st.sentScreenFrames + 1 }

/-- The video track's `onended` handler (LiveSession.tsx lines 271-273):
user-initiated revocation runs `stopScreenShare`. -/
def onScreenTrackEnded (st : LiveState) : LiveState :=
  stopScreenShare st

/-- External event: the user revokes sharing through the browser chrome,
deactivating the display stream. -/
def revokeScreenStream (st : LiveState) : LiveState :=
  { st with screenStreamRef := st.screenStreamRef.map (fun s => { s with active := false }) }

/-! ## Base64 round-trip lemmas -/

theorem b64Index_b64Char : ∀ k, k < 64 → b64Index (b64Char k) = k := by decide

theorem b64Char_ne_61 : ∀ k, k < 64 → b64Char k ≠ 61 := by decide

/-- `atob` inverts `btoa` on binary strings: the base64 round trip is the
identity on byte lists. -/
theorem decode_encode : ∀ bs : List Nat, (∀ b ∈ bs, b < 256) → decode (encode bs) = bs
  | [], _ => rfl
  | [b0], h => by
    have hb0 : b0 < 256 := h b0 (by simp)
    have h1 : b0 * 65536 / 262144 < 64 := by omega
    have h2 : b0 * 65536 / 4096 % 64 < 64 := by omega
    show decode [b64Char (b0 * 65536 / 262144), b64Char (b0 * 65536 / 4096 % 64), 61, 61]
        = [b0]
    show [b64Index (b64Char (b0 * 65536 / 262144)) * 4
        + b64Index (b64Char (b0 * 65536 / 4096 % 64)) / 16] = [b0]
    rw [b64Index_b64Char _ h1, b64Index_b64Char _ h2]
    simp only [List.cons.injEq, and_true]
    omega
  | [b0, b1], h => by
    have hb0 : b0 < 256 := h b0 (by simp)
    have hb1 : b1 < 256 := h b1 (by simp)
    have h1 : (b0 * 65536 + b1 * 256) / 262144 < 64 := by omega
    have h2 : (b0 * 65536 + b1 * 256) / 4096 % 64 < 64 := by omega
    have h3 : (b0 * 65536 + b1 * 256) / 64 % 64 < 64 := by omega
    show decode [b64Char ((b0 * 65536 + b1 * 256) / 262144),
        b64Char ((b0 * 65536 + b1 * 256) / 4096 % 64),
        b64Char ((b0 * 65536 + b1 * 256) / 64 % 64), 61] = [b0, b1]
    simp only [decode]
    rw [if_neg (b64Char_ne_61 _ h3)]
    simp only [if_true]
    rw [b64Index_b64Char _ h1, b64Index_b64Char _ h2, b64Index_b64Char _ h3]
    simp only [List.cons.injEq, and_true]
    exact ⟨by omega, by omega⟩
  | b0 :: b1 :: b2 :: rest, h => by
    have hb0 : b0 < 256 := h b0 (by simp)
    have hb1 : b1 < 256 := h b1 (by simp)
    have hb2 : b2 < 256 := h b2 (by simp)
    have h1 : (b0 * 65536 + b1 * 256 + b2) / 262144 < 64 := by omega
    have h2 : (b0 * 65536 + b1 * 256 + b2) / 4096 % 64 < 64 := by omega
    have h3 : (b0 * 65536 + b1 * 256 + b2) / 64 % 64 < 64 := by omega
    have h4 : (b0 * 65536 + b1 * 256 + b2) % 64 < 64 := by omega
    have ih := decode_encode rest (fun b hb => h b (by simp [hb]))
    show decode (b64Char ((b0 * 65536 + b1 * 256 + b2) / 262144) ::
        b64Char ((b0 * 65536 + b1 * 256 + b2) / 4096 % 64) ::
        b64Char ((b0 * 65536 + b1 * 256 + b2) / 64 % 64) ::
        b64Char ((b0 * 65536 + b1 * 256 + b2) % 64) :: encode rest)
        = b0 :: b1 :: b2 :: rest
    simp only [decode]
    rw [if_neg (b64Char_ne_61 _ h3), if_neg (b64Char_ne_61 _ h4)]
    rw [b64Index_b64Char _ h1, b64Index_b64Char _ h2, b64Index_b64Char _ h3,
        b64Index_b64Char _ h4]
    rw [ih]
    simp only [List.cons.injEq]
    exact ⟨by omega, by omega, by omega, trivial⟩

/-! ## Int16 packing lemmas -/

theorem toUint16_lt (k : Int) : toUint16 k < 65536 := by
  unfold toUint16
  omega

theorem int16ToBytes_lt : ∀ ks : List Int, ∀ b ∈ int16ToBytes ks, b < 256
  | [], b, hb => by simp [int16ToBytes] at hb
  | k :: rest, b, hb => by
    have hu := toUint16_lt k
    simp only [int16ToBytes, List.mem_cons] at hb
    rcases hb with h | h | h
    · omega
    · omega
    · exact int16ToBytes_lt rest b h

theorem int16ToBytes_length : ∀ ks : List Int, (int16ToBytes ks).length = 2 * ks.length
  | [] => rfl
  | k :: rest => by
    simp only [int16ToBytes, List.length_cons, int16ToBytes_length rest]
    omega

theorem bytesToInt16_int16ToBytes : ∀ ks : List Int,
    bytesToInt16 (int16ToBytes ks) = ks.map (fun k => fromUint16 (toUint16 k))
  | [] => rfl
  | k :: rest => by
    have hu := toUint16_lt k
    simp only [int16ToBytes, bytesToInt16, List.map_cons, bytesToInt16_int16ToBytes rest]
    have : toUint16 k % 256 + 256 * (toUint16 k / 256) = toUint16 k := by omega
    rw [this]

theorem fromUint16_toUint16 (k : Int) (h1 : -32768 ≤ k) (h2 : k ≤ 32767) :
    fromUint16 (toUint16 k) = k := by
  unfold fromUint16 toUint16
  split <;> omega

/-! ## Quantization lemmas -/

theorem quantize_range (s : ℚ) : -32768 ≤ quantize s ∧ quantize s ≤ 32767 := by
  unfold quantize toInt16
  split <;> omega

theorem toInt16_eq_truncQ (v : ℚ) (h1 : -32768 ≤ truncQ v) (h2 : truncQ v ≤ 32767) :
    toInt16 v = truncQ v := by
  unfold toInt16
  split <;> omega

theorem truncQ_bounds (v : ℚ) : v - 1 ≤ (truncQ v : ℚ) ∧ (truncQ v : ℚ) ≤ v + 1 := by
  unfold truncQ
  split
  · constructor
    · have := Int.sub_one_lt_floor v
      linarith
    · have := Int.floor_le v
      linarith
  · constructor
    · have := Int.le_ceil v
      linarith
    · have := Int.ceil_lt_add_one v
      linarith

theorem truncQ_range (y : ℚ) (h1 : -32768 ≤ y) (h2 : y < 32768) :
    -32768 ≤ truncQ y ∧ truncQ y ≤ 32767 := by
  unfold truncQ
  split
  case isTrue h =>
    constructor
    · have : (0 : Int) ≤ ⌊y⌋ := Int.floor_nonneg.mpr h
      omega
    · have : ⌊y⌋ < 32768 := by
        rw [Int.floor_lt]
        exact_mod_cast h2
      omega
  case isFalse h =>
    constructor
    · have hc : ((-32768 : Int) : ℚ) ≤ (⌈y⌉ : ℚ) :=
        le_trans (by push_cast; linarith) (Int.le_ceil y)
      exact_mod_cast hc
    · have : ⌈y⌉ ≤ 0 := by
        rw [Int.ceil_le]
        push_cast
        linarith [le_of_not_le h]
      omega

/-- Each in-range sample below 1 is reconstructed within one quantization
step by the store-through-Int16Array / divide-by-32768 round trip. -/
theorem quantize_close (s : ℚ) (h1 : -1 ≤ s) (h2 : s < 1) :
    |((quantize s : ℚ)) / 32768 - s| ≤ 1 / 32768 := by
  have hy1 : -32768 ≤ s * 32768 := by linarith
  have hy2 : s * 32768 < 32768 := by linarith
  have hr := truncQ_range (s * 32768) hy1 hy2
  have hq : quantize s = truncQ (s * 32768) := toInt16_eq_truncQ _ hr.1 hr.2
  have hb := truncQ_bounds (s * 32768)
  rw [hq, abs_le]
  constructor
  · linarith [hb.1]
  · linarith [hb.2]

/-! ## List plumbing lemmas -/

theorem range_map_getD {α β : Type} (f : α → β) (d : α) :
    ∀ l : List α, (List.range l.length).map (fun i => f (l.getD i d)) = l.map f
  | [] => rfl
  | a :: rest => by
    rw [List.length_cons, List.range_succ_eq_map]
    simp only [List.map_cons, List.map_map]
    refine congrArg₂ List.cons rfl ?_
    exact range_map_getD f d rest

/-! ## Decoded-audio pipeline lemmas -/

theorem decode_createBlob (x : List ℚ) :
    decode (createBlob x).data = int16ToBytes (x.map quantize) :=
  decode_encode _ (int16ToBytes_lt _)

theorem bytesToInt16_createBlob (x : List ℚ) :
    bytesToInt16 (decode (createBlob x).data) = x.map quantize := by
  rw [decode_createBlob, bytesToInt16_int16ToBytes, List.map_map]
  refine List.map_congr_left ?_
  intro a _
  exact fromUint16_toUint16 _ (quantize_range a).1 (quantize_range a).2

theorem decodeAudioData_createBlob (x : List ℚ) (hne : x ≠ []) :
    decodeAudioData (decode (createBlob x).data) 24000 1 =
      Except.ok { numChannels := 1, frameCount := x.length, sampleRate := 24000,
                  channels := [x.map (fun s => ((quantize s : ℚ)) / 32768)] } := by
  have hlen : (decode (createBlob x).data).length = 2 * x.length := by
    rw [decode_createBlob, int16ToBytes_length, List.length_map]
  unfold decodeAudioData
  rw [if_neg (by omega : ¬(decode (createBlob x).data).length % 2 ≠ 0)]
  simp only [bytesToInt16_createBlob, List.length_map, Nat.div_one]
  rw [if_neg (by simpa using hne : ¬x.length = 0)]
  refine congrArg Except.ok ?_
  refine congrArg _ ?_
  show (List.range 1).map _ = _
  have hr1 : List.range 1 = [0] := rfl
  rw [hr1, List.map_cons, List.map_nil]
  refine congrArg₂ List.cons ?_ rfl
  have : ∀ i : Nat, i * 1 + 0 = i := by omega
  simp only [this]
  rw [← List.length_map x quantize]
  have key := range_map_getD (fun k : Int => ((k : ℚ)) / 32768) 0 (x.map quantize)
  rw [List.map_map] at key
  exact key

/-! ## Scheduler lemmas -/

theorem tryStop_playing (s : PlaybackSource) : (tryStop s).playing = false := by
  unfold tryStop sourceStop
  cases h : s.playing
  · simp [h]
  · simp [h]

theorem enqueueRun_nextStartTime : ∀ (frames : List (ℚ × ℚ)) (st : SchedulerState),
    clocksBehind st frames = true →
    (enqueueRun st frames).1.nextStartTime = st.nextStartTime + sumDur frames
  | [], st, _ => by simp [enqueueRun, sumDur]
  | (d, c) :: rest, st, h => by
    simp only [clocksBehind, Bool.and_eq_true, decide_eq_true_eq] at h
    have hmax : max st.nextStartTime c = st.nextStartTime := max_eq_left h.1
    show (enqueueRun (enqueue st d c).1 rest).1.nextStartTime = _
    rw [enqueueRun_nextStartTime rest _ h.2]
    show max st.nextStartTime c + d + sumDur rest = _
    rw [hmax]
    simp only [sumDur, List.map_cons, List.sum_cons]
    ring

theorem enqueueRun_starts : ∀ (frames : List (ℚ × ℚ)) (st : SchedulerState),
    clocksBehind st frames = true → ∀ i, i < frames.length →
    (enqueueRun st frames).2.getD i 0 = st.nextStartTime + sumDur (frames.take i)
  | [], _, _, i, hi => by simp at hi
  | (d, c) :: rest, st, h, i, hi => by
    simp only [clocksBehind, Bool.and_eq_true, decide_eq_true_eq] at h
    have hmax : max st.nextStartTime c = st.nextStartTime := max_eq_left h.1
    match i with
    | 0 =>
      show max st.nextStartTime c = _
      rw [hmax]
      simp [sumDur]
    | Nat.succ j =>
      have hj : j < rest.length := by simpa using hi
      show (enqueueRun (enqueue st d c).1 rest).2.getD j 0 = _
      rw [enqueueRun_starts rest _ h.2 j hj]
      show max st.nextStartTime c + d + sumDur (rest.take j) = _
      rw [hmax, List.take_succ_cons]
      simp only [sumDur, List.map_cons, List.sum_cons]
      ring

theorem sumDur_take_succ (frames : List (ℚ × ℚ)) (i : Nat) (hi : i < frames.length) :
    sumDur (frames.take (i + 1)) = sumDur (frames.take i) + (frames.getD i (0, 0)).1 := by
  rw [List.take_succ, List.getElem?_eq_getElem hi]
  unfold sumDur
  rw [List.map_append, List.sum_append, List.getD_eq_getElem frames (0, 0) hi]
  simp

/-! ## Claim theorems -/

/-- Claim C1: every enqueue schedules its buffer at
`startAt = max(nextStartTime, device clock)`, adds the new source to the live
set and advances `nextStartTime` to `startAt + duration`; hence while the
device clock stays behind `nextStartTime`, the scheduled start times of a run
satisfy `s_0 = max(nextStartTime_0, clock)` and `s_i = s_(i-1) + d_(i-1)`
(back-to-back in enqueue order), and in particular enqueuing durations 1.0
and 0.5 at device clock 0 from the fresh scheduler leaves
`nextStartTime = 1.5`. -/
theorem c1_scheduler_back_to_back (st : SchedulerState) (frames : List (ℚ × ℚ))
    (h : clocksBehind st frames = true) :
    (∀ d c, (enqueue st d c).2 = max st.nextStartTime c
        ∧ (enqueue st d c).1.nextStartTime = max st.nextStartTime c + d
        ∧ (enqueue st d c).1.liveIds = st.liveIds ++ [st.nextId])
  ∧ (∀ d c rest, frames = (d, c) :: rest →
        (enqueueRun st frames).2.getD 0 0 = max st.nextStartTime c)
  ∧ (∀ i, i + 1 < frames.length →
        (enqueueRun st frames).2.getD (i + 1) 0
          = (enqueueRun st frames).2.getD i 0 + (frames.getD i (0, 0)).1)
  ∧ (enqueueRun initScheduler [(1, 0), ((1 : ℚ) / 2, 0)]).1.nextStartTime = 3 / 2 := by
  refine ⟨fun d c => ⟨rfl, rfl, rfl⟩, ?_, ?_,
    by norm_num [enqueueRun, enqueue, initScheduler, max_def]⟩
  · rintro d c rest rfl
    have h' := h
    simp only [clocksBehind, Bool.and_eq_true, decide_eq_true_eq] at h'
    rw [enqueueRun_starts ((d, c) :: rest) st h 0 (by simp)]
    simp [sumDur, max_eq_left h'.1]
  · intro i hi
    have hip : i < frames.length := by omega
    rw [enqueueRun_starts frames st h (i + 1) hi, enqueueRun_starts frames st h i hip,
        sumDur_take_succ frames i hip]
    ring

/-- Witness for C1: the two-frame scenario of the spec satisfies the
clock-stays-behind hypothesis and ends with `nextStartTime = 1.5`. -/
theorem c1_scheduler_back_to_back_witness :
    clocksBehind initScheduler [(1, 0), ((1 : ℚ) / 2, 0)] = true
    ∧ (enqueueRun initScheduler [(1, 0), ((1 : ℚ) / 2, 0)]).1.nextStartTime = 3 / 2 :=
  ⟨by norm_num [clocksBehind, enqueue, initScheduler, max_def],
   (c1_scheduler_back_to_back initScheduler [(1, 0), ((1 : ℚ) / 2, 0)]
      (by norm_num [clocksBehind, enqueue, initScheduler, max_def])).2.2.2⟩

/-- Claim C2: `interrupt` stops every source in the live set (with each stop
guarded by try/catch, so it is total even on finished sources or an empty
set), clears the live set, resets `nextStartTime` to 0, and a subsequent
enqueue therefore schedules at `max(0, device clock)`. -/
theorem c2_interrupt_resets (st : SchedulerState) :
    (interrupt st).liveIds = []
  ∧ (interrupt st).nextStartTime = 0
  ∧ (∀ s ∈ (interrupt st).allSources, s.id ∈ st.liveIds → s.playing = false)
  ∧ (∀ d c, (enqueue (interrupt st) d c).2 = max 0 c) := by
  refine ⟨rfl, rfl, ?_, fun d c => rfl⟩
  intro s hs hid
  simp only [interrupt, List.mem_map] at hs
  obtain ⟨t, ht, rfl⟩ := hs
  by_cases hmem : t.id ∈ st.liveIds
  · simpa [hmem] using tryStop_playing t
  · rw [if_neg hmem] at hid
    exact absurd hid hmem

/-- Witness for C2 at a state holding one playing and one already-finished
live source. -/
theorem c2_interrupt_resets_witness :
    (interrupt ⟨5, [⟨0, 0, 1, true⟩, ⟨1, 1, 2, false⟩], [0, 1], 2⟩).liveIds = []
  ∧ (interrupt ⟨5, [⟨0, 0, 1, true⟩, ⟨1, 1, 2, false⟩], [0, 1], 2⟩).nextStartTime = 0
  ∧ (∀ s ∈ (interrupt ⟨5, [⟨0, 0, 1, true⟩, ⟨1, 1, 2, false⟩], [0, 1], 2⟩).allSources,
      s.id ∈ [0, 1] → s.playing = false)
  ∧ (∀ d c, (enqueue (interrupt ⟨5, [⟨0, 0, 1, true⟩, ⟨1, 1, 2, false⟩], [0, 1], 2⟩) d c).2
      = max 0 c) :=
  c2_interrupt_resets (⟨5, [⟨0, 0, 1, true⟩, ⟨1, 1, 2, false⟩], [0, 1], 2⟩ : SchedulerState)

/-- Claim C3 (counterexample): for arrays with samples in [-1, 1] the round
trip is claimed accurate to one quantization step, but at the in-range
sample 1.0 the Int16Array store computes ToInt16(32768) = -32768, so the
decoded sample is -1.0, off by 2. -/
theorem c3_roundtrip_counterexample :
    ((-1 : ℚ) ≤ 1 ∧ (1 : ℚ) ≤ 1)
  ∧ (decodeAudioData (decode (createBlob [(1 : ℚ)]).data) 24000 1).map
      (fun b => b.channels.getD 0 []) = Except.ok [(-1 : ℚ)]
  ∧ ¬ (|(-1 : ℚ) - 1| ≤ 1 / 32768) := by
  refine ⟨by norm_num, ?_, by norm_num⟩
  rw [decodeAudioData_createBlob [(1 : ℚ)] (by simp)]
  have hq : quantize 1 = -32768 := by
    unfold quantize toInt16 truncQ
    norm_num
  have hc : ((-32768 : Int) : ℚ) / 32768 = -1 := by norm_num
  simp [hq, hc, Except.map]

/-- Claim C3 (amended): for every nonempty sample array with all values in
[-1, 1), the createBlob → base64 → decodeAudioData round trip succeeds and
reconstructs every sample within one quantization step; the endpoint 1.0 is
excluded because the Int16Array store wraps it to -32768 (decoded -1.0),
and the empty array is excluded because a zero-length buffer cannot be
created. -/
theorem c3_roundtrip_amended (x : List ℚ) (hne : x ≠ [])
    (h : ∀ s ∈ x, -1 ≤ s ∧ s < 1) :
    (decodeAudioData (decode (createBlob x).data) 24000 1).map
        (fun b => b.channels.getD 0 [])
      = Except.ok (x.map (fun s => ((quantize s : ℚ)) / 32768))
  ∧ ∀ i, i < x.length →
      |(x.map (fun s => ((quantize s : ℚ)) / 32768)).getD i 0 - x.getD i 0| ≤ 1 / 32768 := by
  constructor
  · rw [decodeAudioData_createBlob x hne]
    rfl
  · intro i hi
    have hi2 : i < (x.map (fun s => ((quantize s : ℚ)) / 32768)).length := by
      simpa using hi
    rw [List.getD_eq_getElem _ _ hi2, List.getD_eq_getElem _ _ hi, List.getElem_map]
    exact quantize_close _ (h _ (List.getElem_mem hi)).1 (h _ (List.getElem_mem hi)).2

/-- Witness for C3 (amended) at the one-sample array [1/2]. -/
theorem c3_roundtrip_amended_witness :
    (([(1 : ℚ) / 2] : List ℚ) ≠ [] ∧ ∀ s ∈ [(1 : ℚ) / 2], -1 ≤ s ∧ s < 1)
  ∧ ((decodeAudioData (decode (createBlob [(1 : ℚ) / 2]).data) 24000 1).map
        (fun b => b.channels.getD 0 [])
      = Except.ok ([(1 : ℚ) / 2].map (fun s => ((quantize s : ℚ)) / 32768))
    ∧ ∀ i, i < ([(1 : ℚ) / 2] : List ℚ).length →
        |([(1 : ℚ) / 2].map (fun s => ((quantize s : ℚ)) / 32768)).getD i 0
            - ([(1 : ℚ) / 2] : List ℚ).getD i 0| ≤ 1 / 32768) :=
  ⟨⟨by simp, by norm_num⟩, c3_roundtrip_amended _ (by simp) (by norm_num)⟩

/-- Claim C4 (counterexample): a 3-byte payload (length not a multiple of
2·channels at the 1-channel call site) makes `decodeAudioData` raise — the
Int16Array view construction rejects odd byte lengths — and the exception
escapes the `onmessage` handler, which has no catch. -/
theorem c4_malformed_counterexample :
    decodeAudioData [0, 0, 0] 24000 1
      = Except.error "RangeError: byte length of Int16Array should be a multiple of 2"
  ∧ (handleAudioMessage initScheduler (encode [0, 0, 0]) 0).2 = true :=
  ⟨rfl, rfl⟩

/-- Claim C4 (amended): a payload whose decoded byte length is odd makes
the handler raise (uncaught) rather than return partial frames; no source
is created and the live set is untouched — only the pre-decode clock bump
`nextStartTime = max(nextStartTime, clock)` persists — and nothing in the
handler closes the session. -/
theorem c4_malformed_amended (st : SchedulerState) (b64 : List Nat) (clock : ℚ)
    (h : (decode b64).length % 2 ≠ 0) :
    (handleAudioMessage st b64 clock).2 = true
  ∧ (handleAudioMessage st b64 clock).1.liveIds = st.liveIds
  ∧ (handleAudioMessage st b64 clock).1.allSources = st.allSources
  ∧ (handleAudioMessage st b64 clock).1.nextStartTime = max st.nextStartTime clock := by
  have hd : decodeAudioData (decode b64) 24000 1
      = Except.error "RangeError: byte length of Int16Array should be a multiple of 2" := by
    unfold decodeAudioData
    rw [if_pos h]
  unfold handleAudioMessage
  rw [hd]
  exact ⟨rfl, rfl, rfl, rfl⟩

/-- Witness for C4 (amended) at the base64 encoding of three zero bytes. -/
theorem c4_malformed_amended_witness :
    (decode (encode [0, 0, 0])).length % 2 ≠ 0
  ∧ ((handleAudioMessage initScheduler (encode [0, 0, 0]) 0).2 = true
    ∧ (handleAudioMessage initScheduler (encode [0, 0, 0]) 0).1.liveIds = []
    ∧ (handleAudioMessage initScheduler (encode [0, 0, 0]) 0).1.allSources = []
    ∧ (handleAudioMessage initScheduler (encode [0, 0, 0]) 0).1.nextStartTime = max 0 0) :=
  ⟨by decide, c4_malformed_amended initScheduler (encode [0, 0, 0]) 0 (by decide)⟩

/-- Claim C5 (code behavior at the failing input): the `onaudioprocess`
closure captures `isMuted` from the render that started the session, so
after `toggleMute` has set `isMuted = true`, an incoming capture block is
still encoded and sent — the mute check consults the stale captured value,
not the flag as last set by `toggleMute`. -/
theorem c5_mute_stale_closure :
    (toggleMute (onTransportOpen (startSession initialLiveState ⟨true, 1, 2, 3, 4⟩) 5 6)).isMuted
      = true
  ∧ (onAudioProcess (toggleMute (onTransportOpen
        (startSession initialLiveState ⟨true, 1, 2, 3, 4⟩) 5 6)) [0]).sentAudioBlocks
      = (toggleMute (onTransportOpen
          (startSession initialLiveState ⟨true, 1, 2, 3, 4⟩) 5 6)).sentAudioBlocks + 1 :=
  ⟨rfl, rfl⟩

/-- Claim C6: `stopSession` is idempotent and callable from any state,
including one never started; it leaves the session idle with every resource
handle null, resets the playback clock to 0, and its result does not depend
on whether requesting transport close raises (the error is swallowed). -/
theorem c6_stop_idempotent (st : LiveState) :
    stopSession (stopSession st) = stopSession st
  ∧ (stopSession st).status = Status.idle
  ∧ (stopSession st).isActive = false
  ∧ (stopSession st).screenIntervalRef = none
  ∧ (stopSession st).screenStreamRef = none
  ∧ (stopSession st).videoSrcObject = none
  ∧ (stopSession st).processorRef = none
  ∧ (stopSession st).sourceRef = none
  ∧ (stopSession st).streamRef = none
  ∧ (stopSession st).audioContextRef = none
  ∧ (stopSession st).inputAudioContextRef = none
  ∧ (stopSession st).sessionPromiseRef = none
  ∧ (stopSession st).nextStartTimeRef = 0
  ∧ (∀ i : Nat,
      stopSession { st with sessionPromiseRef := some ⟨i, true⟩ }
        = stopSession { st with sessionPromiseRef := some ⟨i, false⟩ }) :=
  ⟨rfl, rfl, rfl, rfl, rfl, rfl, rfl, rfl, rfl, rfl, rfl, rfl, rfl, fun _ => rfl⟩

/-- Claim C7 (counterexample): with the microphone denied, `startSession`
from the mounted idle state sets status to error but performs no teardown:
both freshly created audio contexts are still held, not released. -/
theorem c7_start_failure_counterexample :
    (startSession initialLiveState ⟨false, 10, 11, 12, 13⟩).status = Status.error
  ∧ (startSession initialLiveState ⟨false, 10, 11, 12, 13⟩).inputAudioContextRef = some 10
  ∧ (startSession initialLiveState ⟨false, 10, 11, 12, 13⟩).audioContextRef = some 11 :=
  ⟨rfl, rfl, rfl⟩

/-- Claim C7 (amended): a microphone-acquisition failure leaves status =
error with both audio contexts still open (the catch block runs no
teardown; the mic stream was never acquired, so that ref is unchanged);
only the transport error callback performs full teardown, via
`stopSession`, which releases every handle but ends with status idle
rather than error. -/
theorem c7_start_failure_amended (st : LiveState) (env : StartEnv)
    (hai : st.aiReady = true) (hmic : env.micGranted = false) :
    (startSession st env).status = Status.error
  ∧ (startSession st env).inputAudioContextRef = some env.inputCtxId
  ∧ (startSession st env).audioContextRef = some env.outputCtxId
  ∧ (startSession st env).streamRef = st.streamRef
  ∧ (startSession st env).sessionPromiseRef = st.sessionPromiseRef
  ∧ (∀ s : LiveState, onTransportError s = stopSession s
      ∧ (onTransportError s).status = Status.idle
      ∧ (onTransportError s).audioContextRef = none
      ∧ (onTransportError s).inputAudioContextRef = none
      ∧ (onTransportError s).streamRef = none
      ∧ (onTransportError s).sessionPromiseRef = none) := by
  unfold startSession
  rw [hai, hmic]
  exact ⟨rfl, rfl, rfl, rfl, rfl, fun s => ⟨rfl, rfl, rfl, rfl, rfl, rfl⟩⟩

/-- Witness for C7 (amended) at the mounted idle state with mic denied. -/
theorem c7_start_failure_amended_witness :
    (initialLiveState.aiReady = true
      ∧ (⟨false, 10, 11, 12, 13⟩ : StartEnv).micGranted = false)
  ∧ ((startSession initialLiveState ⟨false, 10, 11, 12, 13⟩).status = Status.error
    ∧ (startSession initialLiveState ⟨false, 10, 11, 12, 13⟩).inputAudioContextRef = some 10
    ∧ (startSession initialLiveState ⟨false, 10, 11, 12, 13⟩).audioContextRef = some 11
    ∧ (startSession initialLiveState ⟨false, 10, 11, 12, 13⟩).streamRef = none
    ∧ (startSession initialLiveState ⟨false, 10, 11, 12, 13⟩).sessionPromiseRef = none
    ∧ (∀ s : LiveState, onTransportError s = stopSession s
        ∧ (onTransportError s).status = Status.idle
        ∧ (onTransportError s).audioContextRef = none
        ∧ (onTransportError s).inputAudioContextRef = none
        ∧ (onTransportError s).streamRef = none
        ∧ (onTransportError s).sessionPromiseRef = none)) :=
  ⟨⟨rfl, rfl⟩, c7_start_failure_amended initialLiveState ⟨false, 10, 11, 12, 13⟩ rfl rfl⟩

/-- Claim C8 (counterexample): `startSession` invoked while the session is
connected is not a guarded no-op: it re-enters connecting (thus entering
connecting from connected, not only from idle) and begins a second connect
attempt. -/
theorem c8_no_guard_counterexample :
    ({ initialLiveState with status := Status.connected, isActive := true, sessionPromiseRef := some ⟨3, false⟩ } : LiveState).status = Status.connected
  ∧ (startSession { initialLiveState with status := Status.connected, isActive := true, sessionPromiseRef := some ⟨3, false⟩ } ⟨true, 10, 11, 12, 13⟩).status = Status.connecting
  ∧ startSession { initialLiveState with status := Status.connected, isActive := true, sessionPromiseRef := some ⟨3, false⟩ } ⟨true, 10, 11, 12, 13⟩
      ≠ { initialLiveState with status := Status.connected, isActive := true, sessionPromiseRef := some ⟨3, false⟩ } :=
  ⟨rfl, rfl, fun heq => absurd (congrArg LiveState.status heq) (by decide)⟩

/-- Claim C8 (amended): `startSession` is guarded only on the AI client's
presence: with the client absent it returns the state unchanged, while with
the client present it proceeds from any status — including connected — to a
fresh connect attempt, overwriting the context refs and re-entering
connecting (or error when the microphone is denied). -/
theorem c8_no_state_guard_amended (st : LiveState) (env : StartEnv)
    (hai : st.aiReady = true) (hst : st.status = Status.connected) :
    (startSession st env).status
        = (if env.micGranted then Status.connecting else Status.error)
  ∧ (startSession st env).inputAudioContextRef = some env.inputCtxId
  ∧ (startSession st env).audioContextRef = some env.outputCtxId
  ∧ (∀ s : LiveState, s.aiReady = false → startSession s env = s) := by
  unfold startSession
  rw [hai]
  cases hmg : env.micGranted
  · exact ⟨rfl, rfl, rfl, fun s hs => by rw [hs]; rfl⟩
  · exact ⟨rfl, rfl, rfl, fun s hs => by rw [hs]; rfl⟩

/-- Witness for C8 (amended) at a connected state with a granted mic. -/
theorem c8_no_state_guard_amended_witness :
    (({ initialLiveState with status := Status.connected, isActive := true, sessionPromiseRef := some ⟨3, false⟩ } : LiveState).aiReady = true
      ∧ ({ initialLiveState with status := Status.connected, isActive := true, sessionPromiseRef := some ⟨3, false⟩ } : LiveState).status = Status.connected)
  ∧ ((startSession { initialLiveState with status := Status.connected, isActive := true, sessionPromiseRef := some ⟨3, false⟩ } ⟨true, 10, 11, 12, 13⟩).status
        = (if ((⟨true, 10, 11, 12, 13⟩ : StartEnv)).micGranted then Status.connecting else Status.error)
    ∧ (startSession { initialLiveState with status := Status.connected, isActive := true, sessionPromiseRef := some ⟨3, false⟩ } ⟨true, 10, 11, 12, 13⟩).inputAudioContextRef = some 10
    ∧ (startSession { initialLiveState with status := Status.connected, isActive := true, sessionPromiseRef := some ⟨3, false⟩ } ⟨true, 10, 11, 12, 13⟩).audioContextRef = some 11
    ∧ (∀ s : LiveState, s.aiReady = false → startSession s ⟨true, 10, 11, 12, 13⟩ = s)) :=
  ⟨⟨rfl, rfl⟩, c8_no_state_guard_amended _ ⟨true, 10, 11, 12, 13⟩ rfl rfl⟩

/-- Claim C9: screen frames are sampled on a fixed 1000 ms (1 fps)
interval; a tick that finds the display stream ended self-stops the
pipeline via `stopScreenShare` instead of sending a frame, and the video
track's ended event runs the same `stopScreenShare` path as an explicit
stop call. -/
theorem c9_screen_pipeline (st : LiveState)
    (hsess : st.sessionPromiseRef ≠ none) (hsurf : st.surfacesReady = true)
    (hinactive : screenInactive st = true) :
    (∀ env : ScreenEnv, env.displayGranted = true →
        (startScreenShare st env).screenIntervalRef = some ⟨1000⟩)
  ∧ screenTick st = stopScreenShare st
  ∧ (screenTick st).sentScreenFrames = st.sentScreenFrames
  ∧ (∀ s : LiveState, onScreenTrackEnded s = stopScreenShare s) := by
  refine ⟨?_, ?_, ?_, fun s => rfl⟩
  · intro env henv
    simp [startScreenShare, hsess, henv, hsurf]
  · unfold screenTick
    rw [if_pos hinactive]
  · unfold screenTick
    rw [if_pos hinactive]
    rfl

/-- Witness for C9 at a sharing state whose display stream has been
revoked. -/
theorem c9_screen_pipeline_witness :
    (({ initialLiveState with sessionPromiseRef := some ⟨3, false⟩, screenStreamRef := some ⟨7, false⟩, isScreenSharing := true, screenIntervalRef := some ⟨1000⟩ } : LiveState).sessionPromiseRef ≠ none
      ∧ ({ initialLiveState with sessionPromiseRef := some ⟨3, false⟩, screenStreamRef := some ⟨7, false⟩, isScreenSharing := true, screenIntervalRef := some ⟨1000⟩ } : LiveState).surfacesReady = true
      ∧ screenInactive { initialLiveState with sessionPromiseRef := some ⟨3, false⟩, screenStreamRef := some ⟨7, false⟩, isScreenSharing := true, screenIntervalRef := some ⟨1000⟩ } = true)
  ∧ ((∀ env : ScreenEnv, env.displayGranted = true →
        (startScreenShare { initialLiveState with sessionPromiseRef := some ⟨3, false⟩, screenStreamRef := some ⟨7, false⟩, isScreenSharing := true, screenIntervalRef := some ⟨1000⟩ } env).screenIntervalRef = some ⟨1000⟩)
    ∧ screenTick { initialLiveState with sessionPromiseRef := some ⟨3, false⟩, screenStreamRef := some ⟨7, false⟩, isScreenSharing := true, screenIntervalRef := some ⟨1000⟩ }
        = stopScreenShare { initialLiveState with sessionPromiseRef := some ⟨3, false⟩, screenStreamRef := some ⟨7, false⟩, isScreenSharing := true, screenIntervalRef := some ⟨1000⟩ }
    ∧ (screenTick { initialLiveState with sessionPromiseRef := some ⟨3, false⟩, screenStreamRef := some ⟨7, false⟩, isScreenSharing := true, screenIntervalRef := some ⟨1000⟩ }).sentScreenFrames
        = ({ initialLiveState with sessionPromiseRef := some ⟨3, false⟩, screenStreamRef := some ⟨7, false⟩, isScreenSharing := true, screenIntervalRef := some ⟨1000⟩ } : LiveState).sentScreenFrames
    ∧ (∀ s : LiveState, onScreenTrackEnded s = stopScreenShare s)) :=
  ⟨⟨by simp, rfl, rfl⟩, c9_screen_pipeline _ (by simp) rfl rfl⟩

/-- Claim C10: the base64 transport functions are exact mutual inverses at
the byte level: `decode (encode bs) = bs` for every byte list. -/
theorem c10_base64_exact_roundtrip (bs : List Nat) (h : ∀ b ∈ bs, b < 256) :
    decode (encode bs) = bs :=
  decode_encode bs h

/-- Witness for C10 on a five-byte array exercising all padding shapes via
its length. -/
theorem c10_base64_exact_roundtrip_witness :
    (∀ b ∈ [0, 1, 127, 128, 255], b < 256)
  ∧ decode (encode [0, 1, 127, 128, 255]) = [0, 1, 127, 128, 255] :=
  ⟨by decide, c10_base64_exact_roundtrip [0, 1, 127, 128, 255] (by decide)⟩

end DevMentor
